import Mathlib

/-!
# Verification of the market-analysis repository

Shallow embedding of the three Python source files:

* `stock_search.py` — the drawdown screener `search_drawdown` and the auth
  step of its `main`;
* `get_param.py` — the config accessor `get_param` with dotted-path lookup;
* `make_chart.py` — the chart renderer `make_chart` and the auth step of its
  `main`.

Network calls are abstracted as explicit inputs (a `fetch` function handed to
the screener, an `AuthResponse` value handed to the auth step); everything
downstream of those inputs is translated statement by statement from the
Python source.  Prices are modelled as rationals (`ℚ`); pandas `NaN` /
Python `None` cells are `Cell.null`.
-/

/-- One cell of an API response row.  `Cell.num q` is a value that
`pd.to_numeric` accepts (numbers, including numeric strings, which it
parses); `Cell.str s` is a value it fails to parse and coerces to `NaN`
under `errors="coerce"`; `Cell.null` is a missing value / `NaN`. -/
inductive Cell where
  | num (q : ℚ)
  | str (s : String)
  | null
deriving DecidableEq, Repr

/-- A row of an API payload: the JSON object for one trading day,
as an association list from column name to cell. -/
abbrev Row := List (String × Cell)

/-- `pd.DataFrame(quotes)` builds its column set from the union of the rows'
keys: column `c` exists iff some row carries it.  Models `c in df.columns`. -/
def hasCol (rows : List Row) (c : String) : Bool :=
  rows.any (fun r => (r.lookup c).isSome)

/-- `pd.to_numeric(x, errors="coerce")` followed by `dropna()` keeps exactly
the numeric cells. -/
def toNum : Cell → Option ℚ
  | Cell.num q => some q
  | Cell.str _ => none
  | Cell.null => none

/-- The values of column `c`, one per row; a row without the key contributes
`NaN` (pandas fills missing keys with `NaN`). -/
def colCells (rows : List Row) (c : String) : List Cell :=
  rows.map (fun r => (r.lookup c).getD Cell.null)

/-- Comparison used by `df.sort_values`: numbers by numeric order, strings
(dates are `"YYYY-MM-DD"` strings) lexicographically, `NaN` placed last
(`na_position="last"`).  Heterogeneous cells never occur in one column of
the API payloads; they are ordered by a fixed rank so the order is total. -/
def cellRank : Cell → ℕ
  | Cell.num _ => 0
  | Cell.str _ => 1
  | Cell.null => 2

def cellLE (a b : Cell) : Bool :=
  match a, b with
  | Cell.num x, Cell.num y => decide (x ≤ y)
  | Cell.str x, Cell.str y => decide (x.data ≤ y.data)
  | x, y => decide (cellRank x ≤ cellRank y)

/-- The sort key of a row for `df.sort_values(c)`. -/
def rowKey (c : String) (r : Row) : Cell :=
  (r.lookup c).getD Cell.null

/-- `df.sort_values(c)`: stable ascending sort of the rows by column `c`. -/
def sortRowsBy (c : String) (rows : List Row) : List Row :=
  List.insertionSort (fun r s => cellLE (rowKey c r) (rowKey c s) = true) rows

/-- Lines 82–84 of `stock_search.py`:
`date_col = "Date" if "Date" in df.columns else ("date" if "date" in df.columns else None)`. -/
def dateColOf (rows : List Row) : Option String :=
  if hasCol rows "Date" then some "Date"
  else if hasCol rows "date" then some "date"
  else none

/-- Lines 82–84: sort by the detected date column, if any; otherwise the
rows stay in received order. -/
def dateSortedRows (rows : List Row) : List Row :=
  match dateColOf rows with
  | some c => sortRowsBy c rows
  | none => rows

/-- Line 86: `s = pd.to_numeric(df["AdjustmentClose"], errors="coerce").dropna()`,
applied to the date-sorted frame. -/
def closeSeries (rows : List Row) : List ℚ :=
  (colCells (dateSortedRows rows) "AdjustmentClose").filterMap toNum

/-- `s.max()` (line 92).  The `[]` case is never reached: the caller has
checked `30 ≤ s.size`. -/
def seriesPeak : List ℚ → ℚ
  | [] => 0
  | h :: t => t.foldl max h

/-- `s.iloc[-1]` (line 93).  The `[]` case is never reached. -/
def seriesLast : List ℚ → ℚ
  | [] => 0
  | h :: t => (h :: t).getLastD h

/-- Outcome of the body of the per-ticker loop in `search_drawdown`
(lines 66–107 of `stock_search.py`). -/
inductive TickerOutcome where
  | errored (msg : String)
  | skipped
  | rejected (ratio : ℚ)
  | retained (ratio : ℚ)
deriving DecidableEq, Repr

/-- One iteration of the loop in `search_drawdown`.  `fetch code` abstracts
the HTTP GET of `/v1/prices/daily_quotes` for the fixed date window together
with `raise_for_status` and the payload-key extraction: `Except.error` is any
exception raised while fetching (caught by the `except` at line 104),
`Except.ok quotes` is the extracted row list.  A `KeyError` from
`df["AdjustmentClose"]` when the column is absent is caught by the same
handler. -/
def processTicker (fetch : String → Except String (List Row)) (threshold : ℚ)
    (code : String) : TickerOutcome :=
  match fetch code with
  | Except.error e => TickerOutcome.errored e
  | Except.ok quotes =>
    if quotes = [] then TickerOutcome.skipped
    else if hasCol (dateSortedRows quotes) "AdjustmentClose" then
      if (closeSeries quotes).length < 30 then TickerOutcome.skipped
      else if seriesLast (closeSeries quotes) / seriesPeak (closeSeries quotes) ≤ threshold then
        TickerOutcome.retained (seriesLast (closeSeries quotes) / seriesPeak (closeSeries quotes))
      else TickerOutcome.rejected (seriesLast (closeSeries quotes) / seriesPeak (closeSeries quotes))
    else TickerOutcome.errored "KeyError: AdjustmentClose"

/-- The `results` list built by the loop (lines 61–107): one
`{"Code": code, "max_drawdown": dd}` entry per retained ticker, in encounter
order. -/
def retainedResults (fetch : String → Except String (List Row)) (threshold : ℚ)
    (tickers : List String) : List (String × ℚ) :=
  tickers.filterMap (fun code =>
    match processTicker fetch threshold code with
    | TickerOutcome.retained r => some (code, r)
    | _ => none)

/-- `results.sort(key=lambda x: x["max_drawdown"])` (line 109, Python's
stable ascending sort) followed by `results[:top_n]` (line 111). -/
def rankedResults (fetch : String → Except String (List Row)) (threshold : ℚ)
    (top_n : ℕ) (tickers : List String) : List (String × ℚ) :=
  (List.insertionSort (fun a b : String × ℚ => a.2 ≤ b.2)
    (retainedResults fetch threshold tickers)).take top_n

/-- `search_drawdown` (lines 50–111 of `stock_search.py`): the date-window
computation (lines 57–59) only parameterises `fetch` and is absorbed into
it; the pure part is the loop, the sort and the final
`[r["Code"] for r in results[:top_n]]`. -/
def search_drawdown (fetch : String → Except String (List Row)) (threshold : ℚ)
    (top_n : ℕ) (tickers : List String) : List String :=
  (rankedResults fetch threshold top_n tickers).map Prod.fst

/-! ## `get_param.py` — config accessor -/

/-- A YAML value as produced by `yaml.safe_load`. -/
inductive Yaml where
  | str (s : String)
  | num (q : ℚ)
  | bool (b : Bool)
  | null
  | list (xs : List Yaml)
  | map (kvs : List (String × Yaml))
deriving Repr

/-- Python truthiness of a loaded YAML value, used by the `data or {}` and
`cfg = yaml.safe_load(f) or {}` idioms. -/
def pyTruthy : Yaml → Bool
  | Yaml.str s => s != ""
  | Yaml.num q => q != 0
  | Yaml.bool b => b
  | Yaml.null => false
  | Yaml.list xs => !xs.isEmpty
  | Yaml.map kvs => !kvs.isEmpty

/-- `_load_config` (lines 10–20 of `get_param.py`).  The input is the file's
parsed content, `none` when the file does not exist: a missing file yields
`{}`, and `data or {}` replaces a falsy load result (for instance the `None`
of an empty file) by `{}`. -/
def loadConfig : Option Yaml → Yaml
  | none => Yaml.map []
  | some data => if pyTruthy data then data else Yaml.map []

/-- Python's `name.split(".")` on the character list: every `'.'` starts a
new segment, adjacent separators give empty segments, and the empty string
splits to `[""]`. -/
def splitDotsChars : List Char → List (List Char)
  | [] => [[]]
  | c :: cs =>
    if c = '.' then [] :: splitDotsChars cs
    else
      match splitDotsChars cs with
      | [] => [[c]]
      | seg :: rest => (c :: seg) :: rest

/-- `name.split(".")` (line 36 of `get_param.py`). -/
def splitDots (name : String) : List String :=
  (splitDotsChars name.data).map (fun cs => String.mk cs)

/-- The `for part in name.split(".")` loop of `get_param`
(lines 36–40): descend while the current value is a dict containing the
segment, otherwise return `default`. -/
def paramLoop (default : Yaml) : Yaml → List String → Yaml
  | current, [] => current
  | current, part :: rest =>
    match current with
    | Yaml.map kvs =>
      match kvs.lookup part with
      | some v => paramLoop default v rest
      | none => default
    | _ => default

/-- `get_param` (lines 23–42 of `get_param.py`).  `file` is the config
file's parsed content (`none` = file missing); `default` is the `default`
argument, `Yaml.null` when the caller leaves it at the Python `None`. -/
def get_param (file : Option Yaml) (name : String) (default : Yaml) : Yaml :=
  paramLoop default (loadConfig file) (splitDots name)

/-- Spec-side companion for C8: the value reached by descending the nested
maps along the path segments, `none` when a segment is missing or an
intermediate value is not a map. -/
def descendPath : Yaml → List String → Option Yaml
  | current, [] => some current
  | current, part :: rest =>
    match current with
    | Yaml.map kvs =>
      match kvs.lookup part with
      | some v => descendPath v rest
      | none => none
    | _ => none

/-! ## Auth step of the two `main` functions (C5) -/

/-- The decoded response of `POST /v1/token/auth_refresh`: HTTP status and
the `idToken` / `message` fields of the JSON body, absent fields as
`none`. -/
structure AuthResponse where
  status : ℕ
  idToken : Option String
  message : Option String
deriving DecidableEq, Repr

/-- What the run does right after the token exchange. -/
inductive AuthOutcome where
  /-- The process terminates: exit code, whether a diagnostic was printed
  first, and how many further API calls were issued before exiting. -/
  | exited (code : ℕ) (diagnosticPrinted : Bool) (furtherApiCalls : ℕ)
  /-- The run proceeds to the API phase with this Authorization header. -/
  | proceeded (authHeader : String)
deriving DecidableEq, Repr

/-- Lines 126–135 of `stock_search.py`.  On status 200 the header is built
from `res.json()['idToken']` (a body without the field raises `KeyError`,
terminating the process with a traceback and exit code 1).  On any other
status the `else` branch displays `res.json()["message"]` (or dies with a
`KeyError` traceback) and control falls through to
`infos = get_all_info(headers)` where evaluating the never-assigned
`headers` raises `UnboundLocalError` before any request is issued, so the
process prints a traceback and exits with code 1 having made no further API
call. -/
def stockSearchAuthStep (res : AuthResponse) : AuthOutcome :=
  if res.status = 200 then
    match res.idToken with
    | some t => AuthOutcome.proceeded ("Bearer " ++ t)
    | none => AuthOutcome.exited 1 true 0
  else
    AuthOutcome.exited 1 true 0

/-- Lines 133–143 of `make_chart.py`: on status 200 the header is built from
`res.json().get('idToken')` (no exception possible); otherwise the message
(or `"HTTP <status>"`) is displayed, `"Failed to fetch idToken."` printed,
and `sys.exit(1)` runs before any further request. -/
def makeChartAuthStep (res : AuthResponse) : AuthOutcome :=
  if res.status = 200 then
    AuthOutcome.proceeded ("Bearer " ++ (res.idToken.getD ""))
  else
    AuthOutcome.exited 1 true 0

/-! ## `make_chart.py` — chart renderer -/

/-- Line 146 of `make_chart.py`: `cfg.get("lookback_days", 180)`.  The
enclosing `main` guarantees `cfg` is the dict `yaml.safe_load(f) or {}`;
`.get` on a non-map is modelled as the default too (that path is
unreachable from `main`). -/
def mcLookbackRaw (cfg : Yaml) : Yaml :=
  match cfg with
  | Yaml.map kvs => (kvs.lookup "lookback_days").getD (Yaml.num 180)
  | _ => Yaml.num 180

/-- `int(...)` around the previous read: truncation toward zero on numbers,
`none` for a value `int()` rejects (raising `TypeError`). -/
def mcLookback (cfg : Yaml) : Option ℤ :=
  match mcLookbackRaw cfg with
  | Yaml.num q => some (q.num.tdiv q.den)
  | Yaml.bool b => some (if b then 1 else 0)
  | _ => none

/-- Line 138 of `stock_search.py`: `lookback_days = get_param("lookback_days")`
— no default argument, so the Python default `None` is used. -/
def ssLookback (file : Option Yaml) : Yaml :=
  get_param file "lookback_days" Yaml.null

/-- Line 62 of `make_chart.py`. -/
def requiredCols : List String :=
  ["Date", "Open", "High", "Low", "Close", "Volume"]

/-- `series.rolling(n).mean()` (lines 81–82): entry `i` is the mean of the
`n` cells ending at `i` once `n` values are available and every cell in the
window is numeric, `NaN` otherwise. -/
def rollingMean (n : ℕ) (xs : List (Option ℚ)) : List (Option ℚ) :=
  (List.range xs.length).map (fun i =>
    if n ≤ i + 1 then
      let window := (xs.take (i + 1)).drop (i + 1 - n)
      if window.all Option.isSome then some ((window.filterMap id).sum / n)
      else none
    else none)

/-- The frame returned by `make_chart` on success: the renamed/selected
OHLCV columns (lines 67–78) plus the two moving averages (lines 81–82). -/
structure ChartFrame where
  date : List Cell
  open_ : List Cell
  high : List Cell
  low : List Cell
  close : List Cell
  volume : List Cell
  ma20 : List (Option ℚ)
  ma60 : List (Option ℚ)
deriving DecidableEq, Repr

/-- The Date-sorted rows of the fetched payload (lines 67–68; the
`pd.to_datetime` conversion keeps the ascending order of the ISO date
strings, so sorting by the string cells models it). -/
def chartSorted (quotes : List Row) : List Row :=
  sortRowsBy "Date" quotes

/-- Column `c` of the sorted chart frame. -/
def chartCol (quotes : List Row) (c : String) : List Cell :=
  colCells (chartSorted quotes) c

/-- `make_chart` (lines 21–110 of `make_chart.py`), its HTTP call abstracted
into three inputs: the response status, whether `requests.get`/`res.json()`
raised (`fetchErr`), and the extracted `quotes` rows.  `renderOk` records
whether the matplotlib block (lines 85–107) succeeds; its failures are
swallowed by the bare `except` at line 108, leaving the return value alone.
`none` models the empty `pd.DataFrame()` returns. -/
def make_chart (status : ℕ) (fetchErr : Bool) (quotes : List Row)
    (renderOk : Bool) : Option ChartFrame :=
  if status ≠ 200 then none
  else if fetchErr then none
  else if quotes = [] then none
  else if ¬ (requiredCols.all (fun c => hasCol quotes c)) then none
  else
    let _ := renderOk
    some {
      date := chartCol quotes "Date"
      open_ := chartCol quotes "Open"
      high := chartCol quotes "High"
      low := chartCol quotes "Low"
      close := chartCol quotes "Close"
      volume := chartCol quotes "Volume"
      ma20 := rollingMean 20 ((chartCol quotes "Close").map toNum)
      ma60 := rollingMean 60 ((chartCol quotes "Close").map toNum) }

/-! ## Order-theoretic facts about the embedded comparisons -/

lemma cellLE_total (a b : Cell) : cellLE a b = true ∨ cellLE b a = true := by
  cases a <;> cases b <;> simp [cellLE, cellRank] <;> exact le_total _ _

lemma cellLE_trans {a b c : Cell} (hab : cellLE a b = true) (hbc : cellLE b c = true) :
    cellLE a c = true := by
  cases a <;> cases b <;> cases c <;>
    simp only [cellLE, cellRank, decide_eq_true_eq] at hab hbc ⊢ <;>
    first
      | trivial
      | omega
      | exact le_trans hab hbc

instance (c : String) : IsTotal Row (fun r s => cellLE (rowKey c r) (rowKey c s) = true) :=
  ⟨fun _ _ => cellLE_total _ _⟩

instance (c : String) : IsTrans Row (fun r s => cellLE (rowKey c r) (rowKey c s) = true) :=
  ⟨fun _ _ _ hab hbc => cellLE_trans hab hbc⟩

instance : IsTotal (String × ℚ) (fun a b => a.2 ≤ b.2) :=
  ⟨fun a b => le_total a.2 b.2⟩

instance : IsTrans (String × ℚ) (fun a b => a.2 ≤ b.2) :=
  ⟨fun _ _ _ hab hbc => le_trans hab hbc⟩

lemma sortRowsBy_sorted (c : String) (rows : List Row) :
    (sortRowsBy c rows).Pairwise
      (fun r s => cellLE (rowKey c r) (rowKey c s) = true) :=
  List.sorted_insertionSort _ rows

lemma sortRowsBy_perm (c : String) (rows : List Row) :
    (sortRowsBy c rows).Perm rows :=
  List.perm_insertionSort _ rows

/-- Stability of the result sort: the retained entries of any fixed ratio
keep their relative (encounter) order through the sort. -/
lemma filter_key_insertionSort (l : List (String × ℚ)) (k : ℚ) :
    (List.insertionSort (fun a b : String × ℚ => a.2 ≤ b.2) l).filter
        (fun x => decide (x.2 = k))
      = l.filter (fun x => decide (x.2 = k)) := by
  have hsub : (l.filter (fun x => decide (x.2 = k))).Sublist
      (List.insertionSort (fun a b : String × ℚ => a.2 ≤ b.2) l) := by
    apply List.sublist_insertionSort _ (List.filter_sublist l)
    apply List.pairwise_of_forall_mem_list
    intro a ha b hb
    have ha2 : a.2 = k := of_decide_eq_true (List.mem_filter.mp ha).2
    have hb2 : b.2 = k := of_decide_eq_true (List.mem_filter.mp hb).2
    show a.2 ≤ b.2
    rw [ha2, hb2]
  have heq : (l.filter (fun x => decide (x.2 = k))).filter (fun x => decide (x.2 = k))
      = l.filter (fun x => decide (x.2 = k)) :=
    List.filter_eq_self.mpr (fun a ha => (List.mem_filter.mp ha).2)
  have hsub2 := List.Sublist.filter (fun x => decide (x.2 = k)) hsub
  rw [heq] at hsub2
  have hperm := (List.perm_insertionSort
    (fun a b : String × ℚ => a.2 ≤ b.2) l).filter (fun x => decide (x.2 = k))
  exact (hsub2.eq_of_length hperm.length_eq.symm).symm

/-! ## Inversion lemmas for the screener -/

lemma processTicker_retained {fetch : String → Except String (List Row)}
    {threshold : ℚ} {code : String} {r : ℚ}
    (h : processTicker fetch threshold code = TickerOutcome.retained r) :
    ∃ quotes, fetch code = Except.ok quotes ∧ quotes ≠ [] ∧
      hasCol (dateSortedRows quotes) "AdjustmentClose" = true ∧
      30 ≤ (closeSeries quotes).length ∧
      r = seriesLast (closeSeries quotes) / seriesPeak (closeSeries quotes) ∧
      r ≤ threshold := by
  unfold processTicker at h
  split at h
  next e heq => exact absurd h (by simp)
  next quotes heq =>
    refine ⟨quotes, heq, ?_⟩
    split_ifs at h with hq hcol hlen hdd <;>
      simp only [TickerOutcome.retained.injEq, reduceCtorEq] at h
    exact ⟨hq, hcol, le_of_not_lt hlen, h.symm, h ▸ hdd⟩

lemma retainedResults_mem {fetch : String → Except String (List Row)}
    {threshold : ℚ} {tickers : List String} {c : String} {r : ℚ}
    (h : (c, r) ∈ retainedResults fetch threshold tickers) :
    c ∈ tickers ∧ processTicker fetch threshold c = TickerOutcome.retained r := by
  unfold retainedResults at h
  rw [List.mem_filterMap] at h
  obtain ⟨a, ha, hfa⟩ := h
  cases hp : processTicker fetch threshold a <;>
    (rw [hp] at hfa;
     simp only [Option.some.injEq, Prod.mk.injEq, reduceCtorEq] at hfa)
  case retained r' =>
    obtain ⟨rfl, rfl⟩ := hfa
    exact ⟨ha, hp⟩

lemma retainedResults_map_fst_sublist (fetch : String → Except String (List Row))
    (threshold : ℚ) (tickers : List String) :
    ((retainedResults fetch threshold tickers).map Prod.fst).Sublist tickers := by
  induction tickers with
  | nil => simp [retainedResults]
  | cons t ts ih =>
    unfold retainedResults
    unfold retainedResults at ih
    rw [List.filterMap_cons]
    cases hp : processTicker fetch threshold t
    case retained r =>
      simpa using List.Sublist.cons₂ t ih
    all_goals simpa using List.Sublist.cons t ih

lemma mem_search_drawdown {fetch : String → Except String (List Row)}
    {threshold : ℚ} {top_n : ℕ} {tickers : List String} {c : String}
    (h : c ∈ search_drawdown fetch threshold top_n tickers) :
    ∃ r, c ∈ tickers ∧ processTicker fetch threshold c = TickerOutcome.retained r := by
  unfold search_drawdown rankedResults at h
  rw [List.mem_map] at h
  obtain ⟨x, hx, hfst⟩ := h
  obtain ⟨c', r⟩ := x
  cases hfst
  have hx' : (c', r) ∈ List.insertionSort (fun a b : String × ℚ => a.2 ≤ b.2)
      (retainedResults fetch threshold tickers) := List.mem_of_mem_take hx
  have hx'' : (c', r) ∈ retainedResults fetch threshold tickers :=
    (List.perm_insertionSort _ _).mem_iff.mp hx'
  obtain ⟨hmem, hpt⟩ := retainedResults_mem hx''
  exact ⟨r, hmem, hpt⟩

lemma processTicker_ok {fetch : String → Except String (List Row)} {code : String}
    {quotes : List Row} (hf : fetch code = Except.ok quotes) (threshold : ℚ) :
    processTicker fetch threshold code =
      (if quotes = [] then TickerOutcome.skipped
       else if hasCol (dateSortedRows quotes) "AdjustmentClose" then
         if (closeSeries quotes).length < 30 then TickerOutcome.skipped
         else if seriesLast (closeSeries quotes) / seriesPeak (closeSeries quotes) ≤ threshold
           then TickerOutcome.retained
             (seriesLast (closeSeries quotes) / seriesPeak (closeSeries quotes))
           else TickerOutcome.rejected
             (seriesLast (closeSeries quotes) / seriesPeak (closeSeries quotes))
       else TickerOutcome.errored "KeyError: AdjustmentClose") := by
  unfold processTicker
  rw [hf]

lemma processTicker_err {fetch : String → Except String (List Row)} {code : String}
    {e : String} (hf : fetch code = Except.error e) (threshold : ℚ) :
    processTicker fetch threshold code = TickerOutcome.errored e := by
  unfold processTicker
  rw [hf]

lemma foldl_max_mem (h : ℚ) (t : List ℚ) : t.foldl max h ∈ h :: t := by
  induction t generalizing h with
  | nil => simp
  | cons a t ih =>
    have := ih (max h a)
    rcases max_choice h a with hm | hm <;>
      simp only [List.foldl_cons] <;> rw [hm] at this ⊢ <;> simp [List.mem_cons] at this ⊢ <;>
      tauto

lemma le_foldl_max (h : ℚ) (t : List ℚ) : ∀ x ∈ h :: t, x ≤ t.foldl max h := by
  induction t generalizing h with
  | nil => simp
  | cons a t ih =>
    intro x hx
    have hstep : ∀ y ∈ max h a :: t, y ≤ t.foldl max (max h a) := ih (max h a)
    have htop : max h a ≤ t.foldl max (max h a) := hstep _ (List.mem_cons_self _ _)
    rcases hx with _ | ⟨_, hx⟩
    · exact le_trans (le_max_left h a) htop
    · rcases hx with _ | ⟨_, hx⟩
      · exact le_trans (le_max_right h a) htop
      · exact hstep _ (List.mem_cons_of_mem _ hx)

lemma seriesPeak_mem {s : List ℚ} (h : s ≠ []) : seriesPeak s ∈ s := by
  cases s with
  | nil => exact absurd rfl h
  | cons a t => exact foldl_max_mem a t

lemma le_seriesPeak {s : List ℚ} : ∀ x ∈ s, x ≤ seriesPeak s := by
  cases s with
  | nil => simp
  | cons a t => exact le_foldl_max a t

lemma seriesLast_eq_getLastD {s : List ℚ} (h : s ≠ []) : seriesLast s = s.getLastD 0 := by
  cases s with
  | nil => exact absurd rfl h
  | cons a t => rfl

/-! ## Claim theorems -/

set_option maxRecDepth 20000

/-- Synthetic series for C1: thirty trading days, received with the most
recent day first; peak adjusted close 100, latest adjusted close 60. -/
def c1Rows : List Row :=
  [("Date", Cell.str "2024-09-30"), ("AdjustmentClose", Cell.num 60)] ::
  (List.range 29).map (fun i =>
    [("Date", Cell.str ("2024-09-" ++ (if i < 9 then "0" else "") ++ toString (i + 1))),
     ("AdjustmentClose", Cell.num 100)])

def c1Fetch : String → Except String (List Row) := fun _ => Except.ok c1Rows

/-- C1: for every ticker whose fetched series yields at least 30 valid
numeric adjusted-close values, the screener computes
`ratio = (last value of the date-sorted series) / (maximum value)` and
retains the ticker iff `ratio ≤ threshold`: the loop outcome is `retained
ratio` when `ratio ≤ threshold` and `rejected ratio` otherwise, where the
divisor is the maximum of the series (it is a member and an upper bound)
and the dividend is its last element. -/
theorem C1_ratio_retention (fetch : String → Except String (List Row))
    (threshold : ℚ) (code : String) (quotes : List Row)
    (hf : fetch code = Except.ok quotes) (hne : quotes ≠ [])
    (hcol : hasCol (dateSortedRows quotes) "AdjustmentClose" = true)
    (hlen : 30 ≤ (closeSeries quotes).length) :
    processTicker fetch threshold code =
      (if seriesLast (closeSeries quotes) / seriesPeak (closeSeries quotes) ≤ threshold
       then TickerOutcome.retained
         (seriesLast (closeSeries quotes) / seriesPeak (closeSeries quotes))
       else TickerOutcome.rejected
         (seriesLast (closeSeries quotes) / seriesPeak (closeSeries quotes))) ∧
    (processTicker fetch threshold code =
        TickerOutcome.retained
          (seriesLast (closeSeries quotes) / seriesPeak (closeSeries quotes))
      ↔ seriesLast (closeSeries quotes) / seriesPeak (closeSeries quotes) ≤ threshold) ∧
    seriesPeak (closeSeries quotes) ∈ closeSeries quotes ∧
    (∀ x ∈ closeSeries quotes, x ≤ seriesPeak (closeSeries quotes)) ∧
    seriesLast (closeSeries quotes) = (closeSeries quotes).getLastD 0 := by
  have hsne : closeSeries quotes ≠ [] := by
    intro hnil
    rw [hnil] at hlen
    simp at hlen
  have heq : processTicker fetch threshold code =
      (if seriesLast (closeSeries quotes) / seriesPeak (closeSeries quotes) ≤ threshold
       then TickerOutcome.retained
         (seriesLast (closeSeries quotes) / seriesPeak (closeSeries quotes))
       else TickerOutcome.rejected
         (seriesLast (closeSeries quotes) / seriesPeak (closeSeries quotes))) := by
    rw [processTicker_ok hf, if_neg hne, if_pos hcol, if_neg (Nat.not_lt.mpr hlen)]
  refine ⟨heq, ?_, seriesPeak_mem hsne, le_seriesPeak, seriesLast_eq_getLastD hsne⟩
  rw [heq]
  split_ifs with hdd
  · simp [hdd]
  · simp [hdd]

/-- C1 witness: on the synthetic series with peak 100 and latest value 60
the ratio is `3/5 = 0.6`; with threshold `0.7` the ticker is retained, with
threshold `0.5` it is rejected. -/
theorem C1_ratio_retention_witness :
    seriesLast (closeSeries c1Rows) / seriesPeak (closeSeries c1Rows) = 3/5 ∧
    processTicker c1Fetch (7/10) "86970" = TickerOutcome.retained (3/5) ∧
    processTicker c1Fetch (1/2) "86970" = TickerOutcome.rejected (3/5) := by
  have hpeak : seriesPeak (closeSeries c1Rows) = 100 := by decide
  have hlast : seriesLast (closeSeries c1Rows) = 60 := by decide
  have hratio : seriesLast (closeSeries c1Rows) / seriesPeak (closeSeries c1Rows) = 3/5 := by
    rw [hpeak, hlast]
    norm_num
  have h1 := (C1_ratio_retention c1Fetch (7/10) "86970" c1Rows rfl (by decide) (by decide)
    (by decide)).1
  have h2 := (C1_ratio_retention c1Fetch (1/2) "86970" c1Rows rfl (by decide) (by decide)
    (by decide)).1
  rw [hratio] at h1 h2
  rw [if_pos (by norm_num : (3:ℚ)/5 ≤ 7/10)] at h1
  rw [if_neg (by norm_num : ¬ ((3:ℚ)/5 ≤ 1/2))] at h2
  exact ⟨hratio, h1, h2⟩

/-- C2: the screener output has at most `top_n` entries, the ranked list it
is read off is sorted ascending by ratio, and the sort is stable: for every
ratio value, the entries carrying it appear in the sorted list exactly in
their original encounter order; the output is a function of its inputs, so
it is deterministic given deterministic input series. -/
theorem C2_sorted_truncated_stable (fetch : String → Except String (List Row))
    (threshold : ℚ) (top_n : ℕ) (tickers : List String) :
    (search_drawdown fetch threshold top_n tickers).length ≤ top_n ∧
    (rankedResults fetch threshold top_n tickers).Sorted
      (fun a b => a.2 ≤ b.2) ∧
    ∀ k : ℚ,
      (List.insertionSort (fun a b : String × ℚ => a.2 ≤ b.2)
          (retainedResults fetch threshold tickers)).filter
        (fun x => decide (x.2 = k))
      = (retainedResults fetch threshold tickers).filter
        (fun x => decide (x.2 = k)) := by
  refine ⟨?_, ?_, fun k => filter_key_insertionSort _ k⟩
  · unfold search_drawdown rankedResults
    rw [List.length_map]
    exact List.length_take_le _ _
  · unfold rankedResults
    exact List.Pairwise.sublist (List.take_sublist _ _) (List.sorted_insertionSort _ _)

/-- Mixed series for C3: thirty numeric adjusted closes (29 × 100 then 60)
followed by a non-numeric entry and a missing value. -/
def c3Rows : List Row :=
  List.replicate 29 [("AdjustmentClose", Cell.num 100)] ++
  [[("AdjustmentClose", Cell.num 60)],
   [("AdjustmentClose", Cell.str "suspended")],
   [("AdjustmentClose", Cell.null)]]

def c3Fetch : String → Except String (List Row) := fun _ => Except.ok c3Rows

/-- C3: a ticker in the screener output always comes from a fetched series
whose numeric subset — non-numeric adjusted-close entries coerced to
missing and dropped by `closeSeries` — has at least 30 values, and its loop
outcome is computed from that numeric subset alone. -/
theorem C3_min_points_numeric_subset (fetch : String → Except String (List Row))
    (threshold : ℚ) (top_n : ℕ) (tickers : List String) (code : String)
    (h : code ∈ search_drawdown fetch threshold top_n tickers) :
    ∃ quotes, fetch code = Except.ok quotes ∧
      30 ≤ (closeSeries quotes).length ∧
      processTicker fetch threshold code =
        TickerOutcome.retained
          (seriesLast (closeSeries quotes) / seriesPeak (closeSeries quotes)) := by
  obtain ⟨r, _, hpt⟩ := mem_search_drawdown h
  obtain ⟨quotes, hf, _, _, hlen, hr, _⟩ := processTicker_retained hpt
  exact ⟨quotes, hf, hlen, hr ▸ hpt⟩

/-- C3 witness: the mixed series with 30 numeric and 2 non-numeric entries
is still screened, on the numeric subset only, and the ticker is retained. -/
theorem C3_min_points_numeric_subset_witness :
    ("135A0" ∈ search_drawdown c3Fetch (7/10) 10 ["135A0"]) ∧
    (∃ quotes, c3Fetch "135A0" = Except.ok quotes ∧
      30 ≤ (closeSeries quotes).length ∧
      processTicker c3Fetch (7/10) "135A0" =
        TickerOutcome.retained
          (seriesLast (closeSeries quotes) / seriesPeak (closeSeries quotes))) := by
  have hpeak : seriesPeak (closeSeries c3Rows) = 100 := by decide
  have hlast : seriesLast (closeSeries c3Rows) = 60 := by decide
  have hdd : seriesLast (closeSeries c3Rows) / seriesPeak (closeSeries c3Rows) ≤ 7/10 := by
    rw [hpeak, hlast]
    norm_num
  have hpt : processTicker c3Fetch (7/10) "135A0" =
      TickerOutcome.retained
        (seriesLast (closeSeries c3Rows) / seriesPeak (closeSeries c3Rows)) := by
    rw [processTicker_ok rfl, if_neg (by decide), if_pos (by decide), if_neg (by decide),
      if_pos hdd]
  have hm : search_drawdown c3Fetch (7/10) 10 ["135A0"] = ["135A0"] := by
    unfold search_drawdown rankedResults retainedResults
    simp only [List.filterMap_cons, List.filterMap_nil, hpt]
    simp [List.insertionSort]
  have hmem : "135A0" ∈ search_drawdown c3Fetch (7/10) 10 ["135A0"] := by
    rw [hm]
    simp
  exact ⟨hmem, C3_min_points_numeric_subset c3Fetch (7/10) 10 ["135A0"] "135A0" hmem⟩

/-- C4: a ticker whose fetch raises (for example a request timeout) is
skipped in isolation — the screener's result on any batch containing it is
the result on the batch with that ticker removed, so every subsequent
ticker is still processed and the batch never aborts. -/
theorem C4_error_skips_only_that_ticker (fetch : String → Except String (List Row))
    (threshold : ℚ) (top_n : ℕ) (pre post : List String) (bad : String)
    (e : String) (hbad : fetch bad = Except.error e) :
    search_drawdown fetch threshold top_n (pre ++ bad :: post)
      = search_drawdown fetch threshold top_n (pre ++ post) := by
  unfold search_drawdown rankedResults
  have hres : retainedResults fetch threshold (pre ++ bad :: post)
      = retainedResults fetch threshold (pre ++ post) := by
    unfold retainedResults
    simp only [List.filterMap_append, List.filterMap_cons, processTicker_err hbad]
  rw [hres]

/-- Fetcher for the C4 witness: the middle ticker times out, the others
return the 30-point synthetic series. -/
def c4Fetch : String → Except String (List Row) := fun code =>
  if code = "BAD" then Except.error "ReadTimeout" else Except.ok c3Rows

/-- C4 witness: with the middle of three tickers timing out, the batch
result equals the result of the two-ticker batch around it. -/
theorem C4_error_skips_only_that_ticker_witness :
    search_drawdown c4Fetch (7/10) 10 ["1301", "BAD", "1305"]
      = search_drawdown c4Fetch (7/10) 10 ["1301", "1305"] :=
  C4_error_skips_only_that_ticker c4Fetch (7/10) 10 ["1301"] ["1305"] "BAD"
    "ReadTimeout" rfl

/-- C5: when the token-refresh POST returns any status other than 200, both
scripts terminate with exit code 1 after printing a diagnostic, issuing no
further API call in that run (`make_chart.py` via an explicit
`sys.exit(1)`; `stock_search.py` via the `UnboundLocalError` raised by
evaluating the never-assigned `headers` before the next request). -/
theorem C5_non200_auth_fatal (res : AuthResponse) (h : res.status ≠ 200) :
    stockSearchAuthStep res = AuthOutcome.exited 1 true 0 ∧
    makeChartAuthStep res = AuthOutcome.exited 1 true 0 := by
  unfold stockSearchAuthStep makeChartAuthStep
  rw [if_neg h, if_neg h]
  exact ⟨rfl, rfl⟩

/-- C5 witness: a 403 response with an error message is fatal for both
scripts with no further API calls. -/
theorem C5_non200_auth_fatal_witness :
    stockSearchAuthStep ⟨403, none, some "The incoming token is invalid."⟩
        = AuthOutcome.exited 1 true 0 ∧
    makeChartAuthStep ⟨403, none, some "The incoming token is invalid."⟩
        = AuthOutcome.exited 1 true 0 :=
  C5_non200_auth_fatal ⟨403, none, some "The incoming token is invalid."⟩ (by decide)

/-- Payload for the C6 counterexample: the price column is named `Close` —
one of the aliases the claim says is recognized — with 30 numeric values,
peak 100 and last value 60. -/
def c6CloseRows : List Row :=
  List.replicate 29 [("Close", Cell.num 100)] ++ [[("Close", Cell.num 60)]]

def c6CloseFetch : String → Except String (List Row) := fun _ => Except.ok c6CloseRows

/-- Payload for the C6 counterexample: dates only under `BaseDate`, newest
row received first (value 60), 29 older rows (value 100) after it. -/
def c6BaseRows : List Row :=
  [("BaseDate", Cell.str "2024-09-30"), ("AdjustmentClose", Cell.num 60)] ::
  (List.range 29).map (fun i =>
    [("BaseDate", Cell.str ("2024-09-" ++ (if i < 9 then "0" else "") ++ toString (i + 1))),
     ("AdjustmentClose", Cell.num 100)])

/-- C6 counterexample: the code recognizes neither the price alias `Close`
(the ticker dies with a `KeyError` and is excluded instead of being
retained at ratio 0.6 under threshold 0.7) nor the date alias `BaseDate`
(no date column is detected, the rows stay in received order, which differs
from the `BaseDate`-sorted order, and the last value used is 100, not the
60 of the date-sorted series). -/
theorem C6_counterexample :
    (processTicker c6CloseFetch (7/10) "6758" =
        TickerOutcome.errored "KeyError: AdjustmentClose" ∧
      search_drawdown c6CloseFetch (7/10) 10 ["6758"] = []) ∧
    (dateColOf c6BaseRows = none ∧
      dateSortedRows c6BaseRows = c6BaseRows ∧
      sortRowsBy "BaseDate" c6BaseRows ≠ c6BaseRows ∧
      seriesLast (closeSeries c6BaseRows) = 100 ∧
      seriesLast ((colCells (sortRowsBy "BaseDate" c6BaseRows)
        "AdjustmentClose").filterMap toNum) = 60) := by
  refine ⟨⟨?_, ?_⟩, ?_, ?_, ?_, ?_, ?_⟩ <;> decide

/-- C6 as amended: the screener reads prices only from the exact column
name `AdjustmentClose` — when that column is absent the `KeyError` makes
the ticker errored and excluded — and detects the date column only under
`Date`, then `date` (never `BaseDate`), sorting the rows ascending by the
detected column and otherwise leaving them in received order. -/
theorem C6_amended_exact_columns (quotes : List Row)
    (fetch : String → Except String (List Row)) (threshold : ℚ) (code : String)
    (hf : fetch code = Except.ok quotes) (hne : quotes ≠ []) :
    (hasCol quotes "Date" = true →
      dateSortedRows quotes = sortRowsBy "Date" quotes ∧
      (dateSortedRows quotes).Pairwise
        (fun r s => cellLE (rowKey "Date" r) (rowKey "Date" s) = true)) ∧
    (hasCol quotes "Date" = false → hasCol quotes "date" = true →
      dateSortedRows quotes = sortRowsBy "date" quotes ∧
      (dateSortedRows quotes).Pairwise
        (fun r s => cellLE (rowKey "date" r) (rowKey "date" s) = true)) ∧
    (hasCol quotes "Date" = false → hasCol quotes "date" = false →
      dateSortedRows quotes = quotes) ∧
    (hasCol (dateSortedRows quotes) "AdjustmentClose" = false →
      processTicker fetch threshold code =
        TickerOutcome.errored "KeyError: AdjustmentClose") := by
  refine ⟨?_, ?_, ?_, ?_⟩
  · intro hD
    have hsort : dateSortedRows quotes = sortRowsBy "Date" quotes := by
      unfold dateSortedRows dateColOf
      rw [if_pos hD]
    rw [hsort]
    exact ⟨rfl, sortRowsBy_sorted "Date" quotes⟩
  · intro hD hd
    have hsort : dateSortedRows quotes = sortRowsBy "date" quotes := by
      unfold dateSortedRows dateColOf
      rw [if_neg (by simp [hD]), if_pos hd]
    rw [hsort]
    exact ⟨rfl, sortRowsBy_sorted "date" quotes⟩
  · intro hD hd
    unfold dateSortedRows dateColOf
    rw [if_neg (by simp [hD]), if_neg (by simp [hd])]
  · intro hcol
    rw [processTicker_ok hf, if_neg hne, if_neg (by simp [hcol])]

/-- C6 amended witness: the `BaseDate` payload is left in received order,
and the `Close`-named payload makes the ticker errored. -/
theorem C6_amended_exact_columns_witness :
    dateSortedRows c6BaseRows = c6BaseRows ∧
    processTicker c6CloseFetch (7/10) "6758" =
      TickerOutcome.errored "KeyError: AdjustmentClose" := by
  have h1 := (C6_amended_exact_columns c6BaseRows (fun _ => Except.ok c6BaseRows)
    (7/10) "6758" rfl (by decide)).2.2.1 (by decide) (by decide)
  have h2 := (C6_amended_exact_columns c6CloseRows c6CloseFetch
    (7/10) "6758" rfl (by decide)).2.2.2 (by decide)
  exact ⟨h1, h2⟩

/-- C7: on a config that lacks `lookback_days`, `stock_search.py` (which
calls `get_param` with no default) obtains `None`, while `make_chart.py`
(`int(cfg.get("lookback_days", 180))`) obtains 180 — so the 180 default
holds only for `make_chart.py`, and `stock_search.py` goes on to crash
adding `None` to the delay offset instead of using 180. -/
theorem C7_lookback_default_divergence :
    ssLookback (some (Yaml.map [("refreshtoken", Yaml.str "x")])) = Yaml.null ∧
    mcLookback (Yaml.map [("refreshtoken", Yaml.str "x")]) = some 180 ∧
    ssLookback none = Yaml.null ∧
    mcLookback (Yaml.map []) = some 180 := by
  refine ⟨rfl, rfl, rfl, rfl⟩

/-- C8: `get_param` equals the spec-side dotted-path descent with the
default substituted for a failed lookup — so it returns the supplied
default whenever a segment is missing or an intermediate value is not a
map, never raises, and treats a missing file as the empty config. -/
theorem C8_get_param_refines_descent (file : Option Yaml) (name : String)
    (default : Yaml) :
    get_param file name default
      = (descendPath (loadConfig file) (splitDots name)).getD default ∧
    get_param none name default
      = (descendPath (Yaml.map []) (splitDots name)).getD default := by
  have key : ∀ (parts : List String) (cur : Yaml),
      paramLoop default cur parts = (descendPath cur parts).getD default := by
    intro parts
    induction parts with
    | nil => intro cur; rfl
    | cons p ps ih =>
      intro cur
      cases cur with
      | map kvs =>
        simp only [paramLoop, descendPath]
        cases hkv : kvs.lookup p with
        | none => rfl
        | some v => exact ih v
      | str s => rfl
      | num q => rfl
      | bool b => rfl
      | null => rfl
      | list xs => rfl
  exact ⟨key _ _, key _ _⟩

/-- C9: the chart renderer returns the empty frame (and, being total, does
not raise) whenever any required column among Date, Open, High, Low, Close,
Volume is missing from the fetched payload; its return value never depends
on whether the rendering block succeeds; and on a well-shaped payload it
returns the sorted series augmented with the 20- and 60-period trailing
moving averages of the close column. -/
theorem C9_make_chart_shape_and_render (status : ℕ) (ferr : Bool)
    (quotes : List Row) (r1 r2 : Bool) :
    make_chart status ferr quotes r1 = make_chart status ferr quotes r2 ∧
    ((∃ c ∈ requiredCols, hasCol quotes c = false) →
      make_chart status ferr quotes r1 = none) ∧
    (status = 200 → ferr = false → quotes ≠ [] →
      (∀ c ∈ requiredCols, hasCol quotes c = true) →
      make_chart status ferr quotes r1 = some {
        date := chartCol quotes "Date"
        open_ := chartCol quotes "Open"
        high := chartCol quotes "High"
        low := chartCol quotes "Low"
        close := chartCol quotes "Close"
        volume := chartCol quotes "Volume"
        ma20 := rollingMean 20 ((chartCol quotes "Close").map toNum)
        ma60 := rollingMean 60 ((chartCol quotes "Close").map toNum) }) := by
  refine ⟨rfl, ?_, ?_⟩
  · rintro ⟨c, hc, hfalse⟩
    unfold make_chart
    split_ifs with h1 h2 h3 h4
    all_goals try rfl
    exfalso
    have := List.all_eq_true.mp h4 c hc
    simp [hfalse] at this
  · intro h200 hferr hne hall
    unfold make_chart
    rw [if_neg (by simp [h200]), hferr, if_neg (by simp), if_neg hne,
      if_neg (by simp [List.all_eq_true]; intro c hc; exact hall c hc)]

/-- Three-day OHLCV payload with all required columns, received newest
first. -/
def c9Rows : List Row :=
  [[("Date", Cell.str "2024-09-12"), ("Open", Cell.num 11), ("High", Cell.num 12),
    ("Low", Cell.num 10), ("Close", Cell.num 11), ("Volume", Cell.num 900)],
   [("Date", Cell.str "2024-09-10"), ("Open", Cell.num 10), ("High", Cell.num 11),
    ("Low", Cell.num 9), ("Close", Cell.num 10), ("Volume", Cell.num 1000)],
   [("Date", Cell.str "2024-09-11"), ("Open", Cell.num 10), ("High", Cell.num 13),
    ("Low", Cell.num 10), ("Close", Cell.num 12), ("Volume", Cell.num 1100)]]

/-- The same payload with the Volume key dropped from every row. -/
def c9RowsNoVol : List Row :=
  c9Rows.map (fun r => r.filter (fun kv => kv.1 != "Volume"))

/-- C9 witness: a payload missing its `volume` data yields the empty frame,
and on the full payload the result is render-independent and carries the
moving-average columns. -/
theorem C9_make_chart_shape_and_render_witness :
    make_chart 200 false c9RowsNoVol true = none ∧
    make_chart 200 false c9Rows false = make_chart 200 false c9Rows true ∧
    make_chart 200 false c9Rows true = some {
      date := chartCol c9Rows "Date"
      open_ := chartCol c9Rows "Open"
      high := chartCol c9Rows "High"
      low := chartCol c9Rows "Low"
      close := chartCol c9Rows "Close"
      volume := chartCol c9Rows "Volume"
      ma20 := rollingMean 20 ((chartCol c9Rows "Close").map toNum)
      ma60 := rollingMean 60 ((chartCol c9Rows "Close").map toNum) } := by
  refine ⟨?_, ?_, ?_⟩
  · exact (C9_make_chart_shape_and_render 200 false c9RowsNoVol true true).2.1
      ⟨"Volume", by decide, by decide⟩
  · exact (C9_make_chart_shape_and_render 200 false c9Rows false true).1
  · exact (C9_make_chart_shape_and_render 200 false c9Rows true true).2.2
      rfl rfl (by decide) (by decide)

/-- C10: on a duplicate-free ticker list the screener output is a
duplicate-free selection from the input: it has no repeated codes and every
returned code occurs in the input list. -/
theorem C10_output_nodup_subset (fetch : String → Except String (List Row))
    (threshold : ℚ) (top_n : ℕ) (tickers : List String)
    (hnd : tickers.Nodup) :
    (search_drawdown fetch threshold top_n tickers).Nodup ∧
    ∀ c ∈ search_drawdown fetch threshold top_n tickers, c ∈ tickers := by
  have hsub : ((retainedResults fetch threshold tickers).map Prod.fst).Sublist tickers :=
    retainedResults_map_fst_sublist fetch threshold tickers
  have hperm : ((List.insertionSort (fun a b : String × ℚ => a.2 ≤ b.2)
        (retainedResults fetch threshold tickers)).map Prod.fst).Perm
      ((retainedResults fetch threshold tickers).map Prod.fst) :=
    (List.perm_insertionSort _ _).map _
  have hnd1 : ((retainedResults fetch threshold tickers).map Prod.fst).Nodup :=
    hsub.nodup hnd
  have hnd2 : ((List.insertionSort (fun a b : String × ℚ => a.2 ≤ b.2)
      (retainedResults fetch threshold tickers)).map Prod.fst).Nodup :=
    hperm.nodup_iff.mpr hnd1
  have hmt : search_drawdown fetch threshold top_n tickers
      = ((List.insertionSort (fun a b : String × ℚ => a.2 ≤ b.2)
          (retainedResults fetch threshold tickers)).map Prod.fst).take top_n := by
    unfold search_drawdown rankedResults
    rw [List.map_take]
  constructor
  · rw [hmt]
    exact (List.take_sublist _ _).nodup hnd2
  · intro c hc
    obtain ⟨r, hmem, _⟩ := mem_search_drawdown hc
    exact hmem

/-- C10 witness: a concrete duplicate-free batch (one retained ticker, one
timing out) gives a duplicate-free output drawn from the input. -/
theorem C10_output_nodup_subset_witness :
    (["1301", "BAD", "1305"] : List String).Nodup ∧
    (search_drawdown c4Fetch (7/10) 10 ["1301", "BAD", "1305"]).Nodup ∧
    ∀ c ∈ search_drawdown c4Fetch (7/10) 10 ["1301", "BAD", "1305"],
      c ∈ (["1301", "BAD", "1305"] : List String) :=
  ⟨by decide,
   C10_output_nodup_subset c4Fetch (7/10) 10 ["1301", "BAD", "1305"] (by decide)⟩
